import Mathlib

/-
Verification of the GES-to-DJI conversion engine (GES2DJI.py).

The Python source is shallowly embedded:
  * numeric values (Python floats) are modelled as rationals `ℚ`, except for
    the trigonometric bearing computation, which is modelled over the reals;
  * Python exceptions are modelled with `Except BuildError`;
  * the XML element tree produced by `create_dji_wpml` is modelled by the
    structures `WpmlDoc` / `Placemark` / `ActionGroup`, which record the
    values the source writes into the corresponding elements (the source
    additionally formats them, e.g. `:.1f` / `:.8f`, when serializing);
  * `create_dji_wpml` receives the two geodesic helpers as explicit function
    parameters `bearingFn` / `distFn` (the source calls `calculate_bearing`
    and `calculate_distance` directly); all theorems about the builder are
    proved for every instantiation of those parameters, hence in particular
    for the real geodesic functions.
-/

/-! ### Constants (GES2DJI.py lines 20-39) -/

def WPML_NAMESPACE : String := "http://www.dji.com/wpmz/1.0.2"

def DEFAULT_SPEED_MPS : ℚ := 12

def DEFAULT_TRANSITIONAL_SPEED_MPS : ℚ := 12

def DEFAULT_WAYPOINT_SPEED_MPS : ℚ := 12

def DEFAULT_ALTITUDE_TYPE : String := "WGS84"

def DEFAULT_HEADING_MODE_WPML : String := "smoothTransition"

def DEFAULT_HEADING_PATH_MODE : String := "followBadArc"

def DEFAULT_TURN_MODE_INTERMEDIATE : String := "toPointAndPassWithContinuityCurvature"

def DEFAULT_TURN_MODE_LAST : String := "toPointAndStopWithContinuityCurvature"

def DEFAULT_TURN_DAMPING_DIST : ℚ := 0

def DEFAULT_FINISH_ACTION : String := "goHome"

def DEFAULT_RC_LOST_ACTION : String := "goBack"

def DRONE_ENUM_VALUE : ℕ := 68

def DRONE_SUB_ENUM_VALUE : ℕ := 0

def MIN_GIMBAL_PITCH : ℚ := -90

def MAX_GIMBAL_PITCH : ℚ := 60

def DEFAULT_GIMBAL_PITCH : ℚ := 0

def EARTH_RADIUS_METERS : ℚ := 6371000

/-! ### Waypoint thinning (`thin_keyframes`, GES2DJI.py lines 43-68) -/

/-- Python `round`: round half to even (banker's rounding), on rationals. -/
def pyRound (q : ℚ) : ℤ :=
  if q - (⌊q⌋ : ℚ) < 1 / 2 then ⌊q⌋
  else if 1 / 2 < q - (⌊q⌋ : ℚ) then ⌊q⌋ + 1
  else if ⌊q⌋ % 2 = 0 then ⌊q⌋ else ⌊q⌋ + 1

/-- The clamp `max(0, min(original_count - 1, index))` from line 59. -/
def clampIdx (M : ℕ) (z : ℤ) : ℕ := (max 0 (min ((M : ℤ) - 1) z)).toNat

/-- One sampled index: `round(i * (original_count - 1) / (target_count - 1))`,
clamped into `[0, original_count - 1]` (lines 57-59). -/
def thinIndex (M T i : ℕ) : ℕ :=
  clampIdx M (pyRound ((i : ℚ) * ((M : ℚ) - 1) / ((T : ℚ) - 1)))

/-- The set `indices_to_keep` built by lines 55-62: the `target_count` sampled
indices together with the forced endpoints `0` and `original_count - 1`. -/
def thinIndices (M T : ℕ) : Finset ℕ :=
  ((Finset.range T).image (thinIndex M T)) ∪ {0} ∪ {M - 1}

/-- `sorted_indices` from line 63. -/
def selectedIndices (M : ℕ) (t : ℤ) : List ℕ :=
  (thinIndices M t.toNat).sort (· ≤ ·)

/-- Shallow embedding of `thin_keyframes` (lines 43-68).  `target_count` is
`none` when the caller passed `None` (or any non-`int`); status callbacks and
prints are pure side effects and are dropped. -/
def thin_keyframes {α : Type} (keyframes_list : List α) (target_count : Option ℤ) : List α :=
  let original_count := keyframes_list.length
  match target_count with
  | none => keyframes_list
  | some t =>
    if t ≤ 1 ∨ (original_count : ℤ) ≤ t then keyframes_list
    else (selectedIndices original_count t).filterMap (fun idx => keyframes_list[idx]?)

/-! ### Geodesy (`calculate_bearing`, GES2DJI.py lines 70-81), over `ℝ` -/

/-- `math.radians`. -/
noncomputable def radiansOf (deg : ℝ) : ℝ := deg * Real.pi / 180

/-- `math.degrees`. -/
noncomputable def degreesOf (rad : ℝ) : ℝ := rad * 180 / Real.pi

/-- `math.atan2 y x` (note the Python argument order `atan2(x, y)` at line 76
is applied by the caller). -/
noncomputable def atan2 (y x : ℝ) : ℝ :=
  if 0 < x then Real.arctan (y / x)
  else if x < 0 then
    (if 0 ≤ y then Real.arctan (y / x) + Real.pi else Real.arctan (y / x) - Real.pi)
  else if 0 < y then Real.pi / 2
  else if y < 0 then -(Real.pi / 2)
  else 0

/-- Python `%` on reals with a positive modulus: `a - m * ⌊a / m⌋`. -/
noncomputable def pymodR (a m : ℝ) : ℝ := a - m * (⌊a / m⌋ : ℝ)

/-- The unnormalized initial bearing `math.degrees(math.atan2(x, y))` of
lines 72-77. -/
noncomputable def raw_initial_bearing (lat1 lon1 lat2 lon2 : ℝ) : ℝ :=
  let lat1r := radiansOf lat1
  let lon1r := radiansOf lon1
  let lat2r := radiansOf lat2
  let lon2r := radiansOf lon2
  let dLon := lon2r - lon1r
  let x := Real.sin dLon * Real.cos lat2r
  let y := Real.cos lat1r * Real.sin lat2r - Real.sin lat1r * Real.cos lat2r * Real.cos dLon
  degreesOf (atan2 x y)

/-- Shallow embedding of `calculate_bearing` (lines 70-81). -/
noncomputable def calculate_bearing (lat1 lon1 lat2 lon2 : ℝ) : ℝ :=
  let initial_bearing := raw_initial_bearing lat1 lon1 lat2 lon2
  let bearing := pymodR (initial_bearing + 360) 360
  if 180 < bearing then bearing - 360 else bearing

/-! ### Data model for `create_dji_wpml` (GES2DJI.py lines 150-337) -/

/-- A GES keyframe as far as the converter reads it: the three coordinate
fields.  A field is `none` when it is missing from the JSON or not numeric
(i.e. when `float(kf['coordinate'][...])` would raise). -/
structure Keyframe where
  latitude : Option ℚ
  longitude : Option ℚ
  altitude : Option ℚ
deriving DecidableEq, Repr

/-- The `mission_settings` dict.  Every field is optional, matching
`mission_settings.get(...)`; the defaults are applied at the use sites,
exactly as in the source. -/
structure MissionSettings where
  speed : Option ℚ := none
  altitudeType : Option String := none
  finishAction : Option String := none
  rcLostAction : Option String := none
  turnDamping : Option ℚ := none
  desired_waypoints : Option ℤ := none
  fixed_pitch : Option ℚ := none
  heading_mode : Option String := none
  manual_heading : Option ℚ := none
  transitionalSpeed : Option ℚ := none
  waypointSpeed : Option ℚ := none
deriving DecidableEq, Repr

/-- Exceptions that can escape `create_dji_wpml`. -/
inductive BuildError where
  /-- `ValueError("Thinned keyframes list is empty.")`, line 153. -/
  | emptyKeyframes
  /-- `KeyError` / `ValueError` / `TypeError` raised (uncaught) by
  `float(first_kf_data['coordinate']['altitude'])`, line 203. -/
  | missingFirstAltitude
  /-- `TypeError` raised by formatting `None` with `:.1f` at line 279 when
  heading mode is Manual Fixed Heading but `manual_heading` is `None`. -/
  | manualHeadingNone
deriving DecidableEq, Repr

/-- The resolved `wp_heading_mode` / `wp_heading_angle` /
`wp_heading_angle_enable` triple of lines 257-275. -/
structure HeadingInfo where
  mode : String
  angle : ℚ
  enable : Bool
deriving DecidableEq, Repr

/-- One `wpml:actionGroup` element and its single `wpml:action` child
(lines 286-328). -/
structure ActionGroup where
  actionGroupId : ℕ
  startIndex : ℕ
  endIndex : ℕ
  groupMode : String
  triggerType : String
  actionId : ℕ
  actuatorFunc : String
  gimbalPitchRotateAngle : ℚ
deriving DecidableEq, Repr

/-- The children written into a `Placemark` element for a keyframe whose
coordinates parsed (lines 239-328).  Numeric fields hold the unformatted
values (the source formats them, e.g. `:.1f`, when serializing). -/
structure PlacemarkContent where
  lon : ℚ
  lat : ℚ
  index : ℕ
  executeHeight : ℚ
  waypointSpeed : ℚ
  turnMode : String
  turnDampingDist : ℚ
  useStraightLine : String
  headingMode : String
  headingAngle : ℚ
  poiPoint : String
  headingAngleEnable : Bool
  headingPathMode : String
  actionGroups : List ActionGroup
deriving DecidableEq, Repr

/-- A `Placemark` element.  `content = none` models the element created at
line 230 and then left empty because the `try` block at lines 231-237 failed
and the loop `continue`d. -/
structure Placemark where
  content : Option PlacemarkContent
deriving DecidableEq, Repr

/-- The `wpml:missionConfig` block (lines 161-169). -/
structure MissionConfig where
  flyToWaylineMode : String
  finishAction : String
  exitOnRCLost : String
  executeRCLostAction : String
  globalTransitionalSpeed : ℚ
  droneEnumValue : ℕ
  droneSubEnumValue : ℕ
deriving DecidableEq, Repr

/-- The `Folder`-level elements (lines 172-198). -/
structure FolderInfo where
  templateId : ℕ
  executeHeightMode : String
  waylineId : ℕ
  distance : ℚ
  duration : ℚ
  autoFlightSpeed : ℚ
deriving DecidableEq, Repr

/-- The whole waylines document produced by `create_dji_wpml`. -/
structure WpmlDoc where
  config : MissionConfig
  folder : FolderInfo
  placemarks : List Placemark
deriving DecidableEq, Repr

/-! ### The mission builder -/

/-- The `try` block of lines 231-237: all three coordinate fields must
parse, otherwise the point is skipped. -/
def parseCoord (kf : Keyframe) : Option (ℚ × ℚ × ℚ) :=
  match kf.latitude, kf.longitude, kf.altitude with
  | some lat, some lon, some alt => some (lat, lon, alt)
  | _, _, _ => none

/-- `file_pois.get(origin_file)` — the per-file POI dictionary, modelled as
an association list. -/
def lookupPoi : List (String × (ℚ × ℚ)) → String → Option (ℚ × ℚ)
  | [], _ => none
  | (k, v) :: rest, key => if k = key then some v else lookupPoi rest key

/-- The distance accumulation loop of lines 183-191: sums `distFn` over
consecutive points whose latitude and longitude both parse, carrying the last
successfully parsed pair across failures (failures only `pass`). -/
def totalDistance (distFn : ℚ → ℚ → ℚ → ℚ → ℚ) :
    List (Keyframe × String) → Option (ℚ × ℚ) → ℚ
  | [], _ => 0
  | (kf, _) :: rest, last =>
    match kf.latitude, kf.longitude with
    | some lat, some lon =>
      (match last with
       | some (llat, llon) => distFn llat llon lat lon
       | none => 0) + totalDistance distFn rest (some (lat, lon))
    | _, _ => totalDistance distFn rest last

/-- Gimbal pitch resolution (lines 207-213): clamp a provided `fixed_pitch`
into `[MIN_GIMBAL_PITCH, MAX_GIMBAL_PITCH]`, else the horizon default. -/
def resolveTargetPitch (s : MissionSettings) : ℚ :=
  match s.fixed_pitch with
  | some p => max MIN_GIMBAL_PITCH (min MAX_GIMBAL_PITCH p)
  | none => DEFAULT_GIMBAL_PITCH

/-- Heading resolution for one placemark (lines 256-281).  The error case
models the `TypeError` raised at line 279 when `wp_heading_angle` is `None`
(Manual Fixed Heading with no `manual_heading` setting). -/
def resolveHeading (bearingFn : ℚ → ℚ → ℚ → ℚ → ℚ) (s : MissionSettings)
    (file_pois : List (String × (ℚ × ℚ))) (num_keyframes i : ℕ)
    (origin_file : String) (lat lon : ℚ) : Except BuildError HeadingInfo :=
  let heading_mode_option := s.heading_mode.getD "Follow Course"
  if heading_mode_option = "Point Towards File's POI" then
    match lookupPoi file_pois origin_file with
    | some (center_lat, center_lon) =>
      .ok { mode := DEFAULT_HEADING_MODE_WPML,
            angle := bearingFn lat lon center_lat center_lon,
            enable := i == 0 || i == num_keyframes - 1 }
    | none => .ok { mode := "followWayline", angle := 0, enable := false }
  else if heading_mode_option = "Manual Fixed Heading" then
    match s.manual_heading with
    | some h =>
      .ok { mode := DEFAULT_HEADING_MODE_WPML, angle := h,
            enable := i == 0 || i == num_keyframes - 1 }
    | none => .error .manualHeadingNone
  else .ok { mode := "followWayline", angle := 0, enable := false }

/-- The one or two action groups emitted for placemark `i` (lines 286-328):
always the gimbal-rotate-on-reach group, plus the evenly-rotate group when
`i < num_keyframes - 1`.  Each group holds exactly one action. -/
def buildActionGroups (num_keyframes i group_id action_id : ℕ) (target_pitch : ℚ) :
    List ActionGroup :=
  let reach : ActionGroup :=
    { actionGroupId := group_id, startIndex := i, endIndex := i,
      groupMode := "parallel", triggerType := "reachPoint",
      actionId := action_id, actuatorFunc := "gimbalRotate",
      gimbalPitchRotateAngle := target_pitch }
  if i < num_keyframes - 1 then
    [reach,
     { actionGroupId := group_id + 1, startIndex := i, endIndex := i + 1,
       groupMode := "parallel",
       triggerType := if i = 0 then "reachPoint" else "betweenAdjacentPoints",
       actionId := action_id + 1, actuatorFunc := "gimbalEvenlyRotate",
       gimbalPitchRotateAngle := target_pitch }]
  else [reach]

/-- The element values written at lines 239-283 for a placemark whose
coordinates parsed. -/
def mkContent (s : MissionSettings) (num_keyframes : ℕ)
    (start_altitude lat lon alt_amsl : ℚ) (i : ℕ) (h : HeadingInfo)
    (groups : List ActionGroup) : PlacemarkContent :=
  { lon := lon, lat := lat, index := i,
    executeHeight :=
      if s.altitudeType ≠ some "WGS84" then alt_amsl - start_altitude else alt_amsl,
    waypointSpeed := s.waypointSpeed.getD DEFAULT_WAYPOINT_SPEED_MPS,
    turnMode :=
      if i = num_keyframes - 1 then DEFAULT_TURN_MODE_LAST
      else DEFAULT_TURN_MODE_INTERMEDIATE,
    turnDampingDist := s.turnDamping.getD DEFAULT_TURN_DAMPING_DIST,
    useStraightLine := "0",
    headingMode := h.mode, headingAngle := h.angle,
    poiPoint := "0.000000,0.000000,0.000000",
    headingAngleEnable := h.enable,
    headingPathMode := DEFAULT_HEADING_PATH_MODE,
    actionGroups := groups }

/-- The placemark loop of lines 226-328.  `i` is the `enumerate` counter,
`group_id` / `action_id` are the two global counters. -/
def buildPlacemarks (bearingFn : ℚ → ℚ → ℚ → ℚ → ℚ) (s : MissionSettings)
    (file_pois : List (String × (ℚ × ℚ))) (num_keyframes : ℕ)
    (start_altitude target_pitch : ℚ) :
    List (Keyframe × String) → ℕ → ℕ → ℕ → Except BuildError (List Placemark)
  | [], _, _, _ => .ok []
  | (kf, origin_file) :: rest, i, group_id, action_id =>
    match parseCoord kf with
    | none =>
      (buildPlacemarks bearingFn s file_pois num_keyframes start_altitude target_pitch
        rest (i + 1) group_id action_id).map
        (fun ps => { content := none } :: ps)
    | some (lat, lon, alt_amsl) =>
      match resolveHeading bearingFn s file_pois num_keyframes i origin_file lat lon with
      | .error e => .error e
      | .ok h =>
        let groups := buildActionGroups num_keyframes i group_id action_id target_pitch
        (buildPlacemarks bearingFn s file_pois num_keyframes start_altitude target_pitch
          rest (i + 1) (group_id + groups.length) (action_id + groups.length)).map
          (fun ps =>
            { content := some (mkContent s num_keyframes start_altitude
                lat lon alt_amsl i h groups) } :: ps)

/-- Shallow embedding of `create_dji_wpml` (lines 150-337).  `bearingFn` and
`distFn` stand for `calculate_bearing` and `calculate_distance`; every
theorem below holds for every instantiation of them. -/
def create_dji_wpml (bearingFn distFn : ℚ → ℚ → ℚ → ℚ → ℚ)
    (tagged_thinned_keyframes : List (Keyframe × String))
    (mission_settings : MissionSettings)
    (file_pois : List (String × (ℚ × ℚ))) : Except BuildError WpmlDoc :=
  match tagged_thinned_keyframes with
  | [] => .error .emptyKeyframes
  | (first_kf, _) :: _ =>
    match first_kf.altitude with
    | none => .error .missingFirstAltitude
    | some start_altitude =>
      let speed := mission_settings.speed.getD DEFAULT_SPEED_MPS
      let total_distance := totalDistance distFn tagged_thinned_keyframes none
      let duration := if 0 < speed then total_distance / speed else 0
      let num := tagged_thinned_keyframes.length
      let pitch := resolveTargetPitch mission_settings
      (buildPlacemarks bearingFn mission_settings file_pois num start_altitude pitch
        tagged_thinned_keyframes 0 1 1).map
        (fun pms =>
          { config :=
              { flyToWaylineMode := "safely",
                finishAction := mission_settings.finishAction.getD DEFAULT_FINISH_ACTION,
                exitOnRCLost := "executeLostAction",
                executeRCLostAction := mission_settings.rcLostAction.getD DEFAULT_RC_LOST_ACTION,
                globalTransitionalSpeed :=
                  mission_settings.transitionalSpeed.getD DEFAULT_TRANSITIONAL_SPEED_MPS,
                droneEnumValue := DRONE_ENUM_VALUE,
                droneSubEnumValue := DRONE_SUB_ENUM_VALUE },
            folder :=
              { templateId := 0,
                executeHeightMode := mission_settings.altitudeType.getD DEFAULT_ALTITUDE_TYPE,
                waylineId := 0,
                distance := total_distance,
                duration := duration,
                autoFlightSpeed := speed },
            placemarks := pms })

/-! ### Template provider (`create_template_kml`, GES2DJI.py lines 340-378) -/

/-- Does `needle` occur at the head of `hay`? -/
def isPrefixList : List Char → List Char → Bool
  | [], _ => true
  | _ :: _, [] => false
  | a :: as, b :: bs => a == b && isPrefixList as bs

/-- Python `needle in hay` on character lists: substring containment. -/
def containsSub (hay needle : List Char) : Bool :=
  match hay with
  | [] => needle.isEmpty
  | _ :: t => isPrefixList needle hay || containsSub t needle

/-- Python substring containment on strings. -/
def strContains (hay needle : String) : Bool :=
  containsSub hay.toList needle.toList

/-- The first marker substring checked at line 343. -/
def mc_marker : String := "<wpml:missionConfig>"

/-- The second marker substring checked at line 343. -/
def di_marker : String := "<wpml:droneInfo>"

/-- The default template text before the first timestamp interpolation. -/
def template_head : String :=
  "<?xml version=\"1.0\" encoding=\"UTF-8\"?>\n<kml xmlns=\"http://www.opengis.net/kml/2.2\" xmlns:wpml=\"" ++
  WPML_NAMESPACE ++
  "\">\n  <Document>\n    <wpml:author>GES_Converter_GUI</wpml:author>\n    <wpml:createTime>"

/-- The default template text between the two timestamp interpolations. -/
def template_mid : String :=
  "</wpml:createTime>\n    <wpml:updateTime>"

/-- The default template text after the second timestamp interpolation. -/
def template_tail : String :=
  "</wpml:updateTime>\n    <wpml:missionConfig>\n      <wpml:flyToWaylineMode>safely</wpml:flyToWaylineMode>\n      <wpml:finishAction>" ++
  DEFAULT_FINISH_ACTION ++
  "</wpml:finishAction>\n      <wpml:exitOnRCLost>executeLostAction</wpml:exitOnRCLost>\n      <wpml:executeRCLostAction>" ++
  DEFAULT_RC_LOST_ACTION ++
  "</wpml:executeRCLostAction>\n      <wpml:globalTransitionalSpeed>12.0</wpml:globalTransitionalSpeed>\n      <wpml:droneInfo>\n        <wpml:droneEnumValue>68</wpml:droneEnumValue>\n        <wpml:droneSubEnumValue>0</wpml:droneSubEnumValue>\n      </wpml:droneInfo>\n    </wpml:missionConfig>\n    <Folder>\n        <Placemark>\n            <Point><coordinates>0,0</coordinates></Point>\n        </Placemark>\n    </Folder>\n  </Document>\n</kml>"

/-- The synthesized default template of lines 355-378; `timestamp_ms` is the
caller-observed clock value (line 351), passed in explicitly here. -/
def default_template_kml (timestamp_ms : String) : String :=
  template_head ++ timestamp_ms ++ template_mid ++ timestamp_ms ++ template_tail

/-- Shallow embedding of `create_template_kml` (lines 340-378).  The source
checks Python truthiness of the text and then literal substring containment
of the two markers; it never parses the text. -/
def create_template_kml (ref_kml_content : Option String) (timestamp_ms : String) : String :=
  match ref_kml_content with
  | none => default_template_kml timestamp_ms
  | some s =>
    if s = "" then default_template_kml timestamp_ms
    else if strContains s mc_marker && strContains s di_marker then s
    else default_template_kml timestamp_ms

/-! ### A well-formedness predicate for markup text

Modelled from the spec: the spec's reuse condition requires that "a
caller-supplied reference document parses"; the source (lines 342-345) never
parses the reference text, so no parsing code exists in the repository.
Well-formedness is reconstructed here as balanced markup tags: every opening
tag is closed by a matching closing tag, self-closing tags and `?`/`!`
prologue tags are allowed, and scanning ends outside a tag. -/

/-- Scanner state for the well-formedness check: the stack of currently open
element names, the characters of the tag being read (if inside `<...>`), and
a flag recording a malformation seen so far. -/
structure XmlScanState where
  stack : List (List Char)
  cur : Option (List Char)
  bad : Bool
deriving DecidableEq, Repr

/-- The name part of a tag token: characters up to the first space or slash. -/
def xmlTagName (tok : List Char) : List Char :=
  tok.takeWhile (fun c => c ≠ ' ' && c ≠ '/')

/-- Process one complete tag token (the characters between `<` and `>`). -/
def xmlApplyTag (st : XmlScanState) (tok : List Char) : XmlScanState :=
  match tok with
  | [] => { st with bad := true }
  | '/' :: rest =>
    match st.stack with
    | top :: stk => if top = xmlTagName rest then { st with stack := stk }
                    else { st with bad := true }
    | [] => { st with bad := true }
  | '?' :: _ => st
  | '!' :: _ => st
  | _ =>
    if tok.getLastD ' ' = '/' then st
    else { st with stack := xmlTagName tok :: st.stack }

/-- One scanner step. -/
def xmlStep (st : XmlScanState) (c : Char) : XmlScanState :=
  match st.cur with
  | none => if c = '<' then { st with cur := some [] } else st
  | some acc =>
    if c = '>' then xmlApplyTag { st with cur := none } acc.reverse
    else if c = '<' then { st with cur := some [], bad := true }
    else { st with cur := some (c :: acc) }

/-- Modelled from the spec: the predicate for "the reference document
parses" — balanced markup as scanned by `xmlStep`. -/
def xmlWellFormed (s : String) : Bool :=
  let final := s.toList.foldl xmlStep { stack := [], cur := none, bad := false }
  !final.bad && final.stack.isEmpty && final.cur.isNone

/-! ### Claim-support definitions -/

/-- The contents of the non-empty placemarks, in document order. -/
def emittedContents (doc : WpmlDoc) : List PlacemarkContent :=
  doc.placemarks.filterMap Placemark.content

/-- The `wpml:index` values written to the document, in emission order. -/
def emittedIndices (doc : WpmlDoc) : List ℕ :=
  (emittedContents doc).map PlacemarkContent.index

/-- All `wpml:actionGroupId` values in the document, in emission order. -/
def docGroupIds (doc : WpmlDoc) : List ℕ :=
  (emittedContents doc).flatMap (fun c => c.actionGroups.map ActionGroup.actionGroupId)

/-- All `wpml:actionId` values in the document, in emission order. -/
def docActionIds (doc : WpmlDoc) : List ℕ :=
  (emittedContents doc).flatMap (fun c => c.actionGroups.map ActionGroup.actionId)

/-- The heading angle-enable flags of the emitted placemarks, in order. -/
def enableFlags (doc : WpmlDoc) : List Bool :=
  (emittedContents doc).map PlacemarkContent.headingAngleEnable

/-- The `wpml:index` values of a placemark list, in emission order. -/
def psIndices (ps : List Placemark) : List ℕ :=
  (ps.filterMap Placemark.content).map PlacemarkContent.index

/-- The `wpml:actionGroupId` values of a placemark list, in emission order. -/
def psGroupIds (ps : List Placemark) : List ℕ :=
  (ps.filterMap Placemark.content).flatMap (fun c => c.actionGroups.map ActionGroup.actionGroupId)

/-- The `wpml:actionId` values of a placemark list, in emission order. -/
def psActionIds (ps : List Placemark) : List ℕ :=
  (ps.filterMap Placemark.content).flatMap (fun c => c.actionGroups.map ActionGroup.actionId)

/-- Did the build succeed? -/
def exceptOk : Except BuildError WpmlDoc → Bool
  | .ok _ => true
  | .error _ => false

/-- A placeholder document, used only to totalize `buildResultDoc`. -/
def emptyDoc : WpmlDoc :=
  { config :=
      { flyToWaylineMode := "safely", finishAction := DEFAULT_FINISH_ACTION,
        exitOnRCLost := "executeLostAction",
        executeRCLostAction := DEFAULT_RC_LOST_ACTION,
        globalTransitionalSpeed := DEFAULT_TRANSITIONAL_SPEED_MPS,
        droneEnumValue := DRONE_ENUM_VALUE, droneSubEnumValue := DRONE_SUB_ENUM_VALUE },
    folder :=
      { templateId := 0, executeHeightMode := DEFAULT_ALTITUDE_TYPE, waylineId := 0,
        distance := 0, duration := 0, autoFlightSpeed := DEFAULT_SPEED_MPS },
    placemarks := [] }

/-- Extract the document of a successful build (placeholder on error). -/
def buildResultDoc : Except BuildError WpmlDoc → WpmlDoc
  | .ok d => d
  | .error _ => emptyDoc

/-- The `wpml:executeHeight` value of placemark `j` of a build result. -/
def executeHeightAt (r : Except BuildError WpmlDoc) (j : ℕ) : Option ℚ :=
  ((buildResultDoc r).placemarks[j]?.bind Placemark.content).map PlacemarkContent.executeHeight

/-- Modelled from the spec: "the altitude of the first valid keyframe" — the
altitude of the first keyframe of the sequence whose coordinate fields all
parse (the source instead uses the very first keyframe, line 203). -/
def firstValidAltitude : List (Keyframe × String) → Option ℚ
  | [] => none
  | (kf, _) :: rest =>
    match parseCoord kf with
    | some (_, _, alt) => some alt
    | none => firstValidAltitude rest

/-- A dummy geodesic function for concrete runs; the builder theorems hold
for every geodesic function, so any instantiation may witness them. -/
def zeroGeo : ℚ → ℚ → ℚ → ℚ → ℚ := fun _ _ _ _ => 0

/-! ### Concrete runs used by counterexamples and witnesses -/

/-- A keyframe whose three coordinate fields all parse. -/
def kfA : Keyframe := { latitude := some 10, longitude := some 20, altitude := some 50 }

/-- Another fully valid keyframe. -/
def kfB : Keyframe := { latitude := some 11, longitude := some 21, altitude := some 100 }

/-- A third fully valid keyframe. -/
def kfC : Keyframe := { latitude := some 12, longitude := some 22, altitude := some 150 }

/-- A keyframe with an unparseable latitude (but a valid altitude). -/
def kfNoLat : Keyframe := { latitude := none, longitude := some 20, altitude := some 50 }

/-- A keyframe with no parseable latitude or longitude, altitude present. -/
def kfOnlyAlt : Keyframe := { latitude := none, longitude := none, altitude := some 5 }

/-- Settings leaving the heading mode at its Follow Course default. -/
def followSettings : MissionSettings := {}

/-- Settings selecting the POI heading mode. -/
def poiSettings : MissionSettings := { heading_mode := some "Point Towards File's POI" }

/-- Settings selecting Manual Fixed Heading with an angle of 45 degrees. -/
def manualSettings : MissionSettings :=
  { heading_mode := some "Manual Fixed Heading", manual_heading := some 45 }

/-- Settings selecting Manual Fixed Heading with no `manual_heading` value. -/
def manualNoneSettings : MissionSettings :=
  { heading_mode := some "Manual Fixed Heading", manual_heading := none }

/-- Settings selecting the relative-to-start altitude mode. -/
def relativeSettings : MissionSettings := { altitudeType := some "relativeToStartPoint" }

/-- Three keyframes whose middle one fails to parse. -/
def kfsSkipMiddle : List (Keyframe × String) :=
  [(kfA, "a.json"), (kfNoLat, "a.json"), (kfB, "a.json")]

/-- The C1 counterexample run: a skipped middle keyframe under default
settings. -/
def runSkipMiddle : Except BuildError WpmlDoc :=
  create_dji_wpml zeroGeo zeroGeo kfsSkipMiddle followSettings []

/-- Two valid keyframes. -/
def kfsTwoValid : List (Keyframe × String) := [(kfA, "a.json"), (kfB, "a.json")]

/-- The C3 counterexample run: POI heading mode with an empty POI map. -/
def runPoiNoPois : Except BuildError WpmlDoc :=
  create_dji_wpml zeroGeo zeroGeo kfsTwoValid poiSettings []

/-- The C4 counterexample keyframes: the first keyframe has an unparseable
latitude but a valid altitude 50; the second is fully valid with altitude
100. -/
def kfsBadFirstLat : List (Keyframe × String) :=
  [(kfNoLat, "a.json"), (kfB, "a.json")]

/-- The C4 counterexample run, in relative-to-start altitude mode. -/
def runBadFirstLat : Except BuildError WpmlDoc :=
  create_dji_wpml zeroGeo zeroGeo kfsBadFirstLat relativeSettings []

/-- The C10 counterexample keyframes: a single keyframe with altitude but no
parseable latitude/longitude. -/
def kfsOnlyAlt : List (Keyframe × String) := [(kfOnlyAlt, "a.json")]

/-- The C10 counterexample run: Manual Fixed Heading with no manual heading,
yet the build succeeds because no keyframe ever reaches the heading code. -/
def runManualNoneOnlyAlt : Except BuildError WpmlDoc :=
  create_dji_wpml zeroGeo zeroGeo kfsOnlyAlt manualNoneSettings []

/-- Three valid keyframes under Manual Fixed Heading, used by witnesses. -/
def kfsThreeValid : List (Keyframe × String) :=
  [(kfA, "a.json"), (kfB, "a.json"), (kfC, "a.json")]

/-- A successful three-placemark manual-heading build, used by witnesses. -/
def runThreeManual : Except BuildError WpmlDoc :=
  create_dji_wpml zeroGeo zeroGeo kfsThreeValid manualSettings []

/-- The C5 counterexample text: it contains both marker substrings but is
not well-formed markup (two opening tags, nothing closed). -/
def bad_ref_kml : String := "<wpml:missionConfig><wpml:droneInfo>"

/-! ### Lemmas: Python rounding -/

theorem pyRound_le (q : ℚ) : (pyRound q : ℚ) ≤ q + 1 / 2 := by
  have h1 : (⌊q⌋ : ℚ) ≤ q := Int.floor_le q
  have h2 : q < (⌊q⌋ : ℚ) + 1 := Int.lt_floor_add_one q
  unfold pyRound
  split_ifs <;> push_cast <;> linarith

theorem le_pyRound (q : ℚ) : q - 1 / 2 ≤ (pyRound q : ℚ) := by
  have h1 : (⌊q⌋ : ℚ) ≤ q := Int.floor_le q
  have h2 : q < (⌊q⌋ : ℚ) + 1 := Int.lt_floor_add_one q
  unfold pyRound
  split_ifs <;> push_cast <;> linarith

theorem floor_le_pyRound (q : ℚ) : ⌊q⌋ ≤ pyRound q := by
  unfold pyRound
  split_ifs <;> omega

theorem pyRound_intCast (n : ℤ) : pyRound ((n : ℚ)) = n := by
  unfold pyRound
  rw [Int.floor_intCast]
  norm_num

theorem pyRound_lt_pyRound (q1 q2 : ℚ) (h : q1 + 1 < q2) : pyRound q1 < pyRound q2 := by
  have ha := pyRound_le q1
  have hb := le_pyRound q2
  have hc : (pyRound q1 : ℚ) < (pyRound q2 : ℚ) := by linarith
  exact_mod_cast hc

theorem pyRound_nonneg (q : ℚ) (h : 0 ≤ q) : 0 ≤ pyRound q := by
  have h1 := floor_le_pyRound q
  have h2 : 0 ≤ ⌊q⌋ := Int.floor_nonneg.mpr h
  omega

theorem pyRound_le_of_le (q : ℚ) (B : ℤ) (h : q ≤ (B : ℚ)) : pyRound q ≤ B := by
  have h1 := pyRound_le q
  have h2 : (pyRound q : ℚ) < (B : ℚ) + 1 := by linarith
  have h3 : pyRound q < B + 1 := by exact_mod_cast h2
  omega

/-! ### Lemmas: the thinning index set -/

theorem clampIdx_lt (M : ℕ) (z : ℤ) (hM : 1 ≤ M) : clampIdx M z < M := by
  unfold clampIdx
  omega

theorem thinIndex_strict (M T i j : ℕ) (hT : 2 ≤ T) (hTM : T < M)
    (hij : i < j) (hjT : j < T) : thinIndex M T i < thinIndex M T j := by
  have h2T : (2 : ℚ) ≤ (T : ℚ) := by exact_mod_cast hT
  have hT1 : (0 : ℚ) < (T : ℚ) - 1 := by linarith
  have hMT : (T : ℚ) < (M : ℚ) := by exact_mod_cast hTM
  have hij1 : (i : ℚ) + 1 ≤ (j : ℚ) := by exact_mod_cast hij
  have hjT1 : (j : ℚ) + 1 ≤ (T : ℚ) := by exact_mod_cast hjT
  have hM0 : (0 : ℚ) ≤ (M : ℚ) - 1 := by linarith
  have hsub : (j : ℚ) * ((M : ℚ) - 1) / ((T : ℚ) - 1) - (i : ℚ) * ((M : ℚ) - 1) / ((T : ℚ) - 1)
      = (((j : ℚ) - (i : ℚ)) * ((M : ℚ) - 1)) / ((T : ℚ) - 1) := by
    rw [div_sub_div_same]
    congr 1
    ring
  have hgt : (1 : ℚ) < (((j : ℚ) - (i : ℚ)) * ((M : ℚ) - 1)) / ((T : ℚ) - 1) := by
    rw [lt_div_iff₀ hT1]
    nlinarith [mul_nonneg (by linarith : (0 : ℚ) ≤ (j : ℚ) - (i : ℚ) - 1) hM0]
  have hgap : (i : ℚ) * ((M : ℚ) - 1) / ((T : ℚ) - 1) + 1 <
      (j : ℚ) * ((M : ℚ) - 1) / ((T : ℚ) - 1) := by linarith [hsub ▸ hgt]
  have hqi0 : (0 : ℚ) ≤ (i : ℚ) * ((M : ℚ) - 1) / ((T : ℚ) - 1) := by
    apply div_nonneg (mul_nonneg (Nat.cast_nonneg i) hM0) (le_of_lt hT1)
  have hqjM : (j : ℚ) * ((M : ℚ) - 1) / ((T : ℚ) - 1) ≤ (((M : ℤ) - 1 : ℤ) : ℚ) := by
    push_cast
    rw [div_le_iff₀ hT1]
    nlinarith [mul_le_mul_of_nonneg_right (by linarith : (j : ℚ) ≤ (T : ℚ) - 1) hM0]
  have hz0 : 0 ≤ pyRound ((i : ℚ) * ((M : ℚ) - 1) / ((T : ℚ) - 1)) := pyRound_nonneg _ hqi0
  have hzM : pyRound ((j : ℚ) * ((M : ℚ) - 1) / ((T : ℚ) - 1)) ≤ (M : ℤ) - 1 :=
    pyRound_le_of_le _ _ hqjM
  have hlt : pyRound ((i : ℚ) * ((M : ℚ) - 1) / ((T : ℚ) - 1)) <
      pyRound ((j : ℚ) * ((M : ℚ) - 1) / ((T : ℚ) - 1)) := pyRound_lt_pyRound _ _ hgap
  unfold thinIndex clampIdx
  omega

theorem thinIndex_zero (M T : ℕ) (hM : 1 ≤ M) : thinIndex M T 0 = 0 := by
  unfold thinIndex
  have h0 : ((0 : ℕ) : ℚ) * ((M : ℚ) - 1) / ((T : ℚ) - 1) = ((0 : ℤ) : ℚ) := by
    push_cast
    ring
  rw [h0, pyRound_intCast]
  unfold clampIdx
  omega

theorem thinIndex_last (M T : ℕ) (hT : 2 ≤ T) (hTM : T < M) :
    thinIndex M T (T - 1) = M - 1 := by
  unfold thinIndex
  have h2T : (2 : ℚ) ≤ (T : ℚ) := by exact_mod_cast hT
  have hT1 : ((T - 1 : ℕ) : ℚ) = (T : ℚ) - 1 := by
    rw [Nat.cast_sub (by omega : 1 ≤ T)]
    norm_num
  have hne : (T : ℚ) - 1 ≠ 0 := by linarith
  have hval : ((T - 1 : ℕ) : ℚ) * ((M : ℚ) - 1) / ((T : ℚ) - 1) = (((M : ℤ) - 1 : ℤ) : ℚ) := by
    rw [hT1, mul_comm ((T : ℚ) - 1) ((M : ℚ) - 1), mul_div_assoc, div_self hne, mul_one]
    push_cast
    ring
  rw [hval, pyRound_intCast]
  unfold clampIdx
  omega

theorem thinIndices_eq_image (M T : ℕ) (hT : 2 ≤ T) (hTM : T < M) :
    thinIndices M T = (Finset.range T).image (thinIndex M T) := by
  unfold thinIndices
  rw [Finset.union_assoc, Finset.union_eq_left]
  intro x hx
  rcases Finset.mem_union.mp hx with h | h
  · rw [Finset.mem_singleton] at h
    subst h
    exact Finset.mem_image.mpr ⟨0, Finset.mem_range.mpr (by omega), thinIndex_zero M T (by omega)⟩
  · rw [Finset.mem_singleton] at h
    subst h
    exact Finset.mem_image.mpr ⟨T - 1, Finset.mem_range.mpr (by omega), thinIndex_last M T hT hTM⟩

theorem thinIndices_card (M T : ℕ) (hT : 2 ≤ T) (hTM : T < M) :
    (thinIndices M T).card = T := by
  rw [thinIndices_eq_image M T hT hTM, Finset.card_image_of_injOn, Finset.card_range]
  intro i hi j hj hij
  have hi2 : i < T := Finset.mem_range.mp (Finset.mem_coe.mp hi)
  have hj2 : j < T := Finset.mem_range.mp (Finset.mem_coe.mp hj)
  rcases lt_trichotomy i j with h | h | h
  · exact absurd hij (ne_of_lt (thinIndex_strict M T i j hT hTM h hj2))
  · exact h
  · exact absurd hij.symm (ne_of_lt (thinIndex_strict M T j i hT hTM h hi2))

theorem mem_thinIndices_lt (M T x : ℕ) (hM : 1 ≤ M) (hx : x ∈ thinIndices M T) : x < M := by
  unfold thinIndices at hx
  rcases Finset.mem_union.mp hx with h | h
  · rcases Finset.mem_union.mp h with h2 | h2
    · rcases Finset.mem_image.mp h2 with ⟨i, _, rfl⟩
      unfold thinIndex
      exact clampIdx_lt M _ hM
    · rw [Finset.mem_singleton] at h2
      omega
  · rw [Finset.mem_singleton] at h
    omega

/-! ### Lemmas: sorted lists and filterMap -/

theorem sorted_head?_zero (l : List ℕ) (hs : l.Sorted (· ≤ ·)) (h0 : 0 ∈ l) :
    l.head? = some 0 := by
  cases l with
  | nil => cases h0
  | cons a t =>
    simp only [List.head?_cons, Option.some.injEq]
    rcases List.mem_cons.mp h0 with h | h
    · omega
    · have ha := (List.sorted_cons.mp hs).1 0 h
      omega

theorem sorted_getLast?_max (l : List ℕ) (x : ℕ) (hs : l.Sorted (· ≤ ·)) (hx : x ∈ l)
    (hmax : ∀ y ∈ l, y ≤ x) : l.getLast? = some x := by
  induction l with
  | nil => cases hx
  | cons a t ih =>
    cases t with
    | nil =>
      rcases List.mem_cons.mp hx with h | h
      · subst h
        rfl
      · cases h
    | cons b t2 =>
      rw [List.getLast?_cons_cons]
      have hab : a ≤ b := (List.sorted_cons.mp hs).1 b (by simp)
      apply ih (List.sorted_cons.mp hs).2
      · rcases List.mem_cons.mp hx with h | h
        · have hbx : b ≤ x := hmax b (by simp)
          have hxb : x = b := by omega
          rw [hxb]
          exact List.mem_cons_self b t2
        · exact h
      · intro y hy
        exact hmax y (List.mem_cons_of_mem a hy)

theorem filterMap_length_all_some {α β : Type} (f : α → Option β) (l : List α)
    (h : ∀ a ∈ l, (f a).isSome) : (l.filterMap f).length = l.length := by
  induction l with
  | nil => rfl
  | cons a t ih =>
    rcases Option.isSome_iff_exists.mp (h a (by simp)) with ⟨b, hb⟩
    rw [List.filterMap_cons, hb]
    simp only [List.length_cons]
    rw [ih (fun x hx => h x (List.mem_cons_of_mem a hx))]

theorem filterMap_head?_some {α β : Type} (f : α → Option β) (l : List α) (a : α) (b : β)
    (hl : l.head? = some a) (hb : f a = some b) : (l.filterMap f).head? = some b := by
  cases l with
  | nil => cases hl
  | cons x t =>
    simp only [List.head?_cons, Option.some.injEq] at hl
    subst hl
    rw [List.filterMap_cons, hb]
    rfl

theorem filterMap_getLast?_some {α β : Type} (f : α → Option β) (l : List α) (a : α) (b : β)
    (hall : ∀ x ∈ l, (f x).isSome) (hl : l.getLast? = some a) (hb : f a = some b) :
    (l.filterMap f).getLast? = some b := by
  induction l with
  | nil => cases hl
  | cons x t ih =>
    cases t with
    | nil =>
      have hxa : x = a := by
        simpa using hl
      subst hxa
      rw [List.filterMap_cons, hb]
      rfl
    | cons y t2 =>
      rw [List.getLast?_cons_cons] at hl
      rcases Option.isSome_iff_exists.mp (hall x (by simp)) with ⟨bx, hbx⟩
      have hstep : List.filterMap f (x :: y :: t2) = bx :: List.filterMap f (y :: t2) := by
        rw [List.filterMap_cons, hbx]
      have ht := ih (fun z hz => hall z (List.mem_cons_of_mem x hz)) hl
      have hne : List.filterMap f (y :: t2) ≠ [] := by
        intro hnil
        have hlen := filterMap_length_all_some f (y :: t2)
          (fun z hz => hall z (List.mem_cons_of_mem x hz))
        rw [hnil] at hlen
        simp at hlen
      rw [hstep]
      cases hLd : List.filterMap f (y :: t2) with
      | nil => exact absurd hLd hne
      | cons c L2 =>
        rw [hLd] at ht
        rw [List.getLast?_cons_cons]
        exact ht

/-! ### Claim C2 and C6: the thinning contract -/

/-- C2: for every keyframe sequence of length M > 1 and every integer target
T with 1 < T < M, `thin_keyframes` returns a subsequence whose length is at
most T and at least the smaller of M and T (in fact exactly T), whose first
and last elements are the original first and last keyframes, and whose
selected original indices are strictly increasing. -/
theorem thin_keyframes_contract {α : Type} (xs : List α) (t : ℤ)
    (h1 : 1 < t) (h2 : t < (xs.length : ℤ)) :
    (thin_keyframes xs (some t)).length ≤ t.toNat ∧
    min xs.length t.toNat ≤ (thin_keyframes xs (some t)).length ∧
    (thin_keyframes xs (some t)).head? = xs.head? ∧
    (thin_keyframes xs (some t)).getLast? = xs.getLast? ∧
    (selectedIndices xs.length t).Sorted (· < ·) := by
  set M := xs.length with hMdef
  set T := t.toNat with hTdef
  have hT2 : 2 ≤ T := by omega
  have hTM : T < M := by omega
  have hM1 : 1 ≤ M := by omega
  have hcond : ¬(t ≤ 1 ∨ (M : ℤ) ≤ t) := by omega
  have hthin : thin_keyframes xs (some t) =
      (selectedIndices M t).filterMap (fun idx => xs[idx]?) := by
    show (if t ≤ 1 ∨ ((M : ℤ)) ≤ t then xs
      else (selectedIndices M t).filterMap (fun idx => xs[idx]?)) =
      (selectedIndices M t).filterMap (fun idx => xs[idx]?)
    rw [if_neg hcond]
  have hsel : selectedIndices M t = (thinIndices M T).sort (· ≤ ·) := rfl
  have hlen : (selectedIndices M t).length = T := by
    rw [hsel, Finset.length_sort, thinIndices_card M T hT2 hTM]
  have hmemlt : ∀ x ∈ selectedIndices M t, x < M := by
    intro x hx
    exact mem_thinIndices_lt M T x hM1 ((Finset.mem_sort _).mp hx)
  have hallsome : ∀ idx ∈ selectedIndices M t, (xs[idx]?).isSome := by
    intro idx hidx
    rw [List.getElem?_eq_getElem (hmemlt idx hidx)]
    rfl
  have houtlen : (thin_keyframes xs (some t)).length = T := by
    rw [hthin, filterMap_length_all_some _ _ hallsome, hlen]
  have hsorted_le : (selectedIndices M t).Sorted (· ≤ ·) := by
    rw [hsel]
    exact Finset.sort_sorted _ _
  have h0mem : 0 ∈ selectedIndices M t := by
    rw [hsel, Finset.mem_sort]
    exact Finset.mem_union_left _ (Finset.mem_union_right _ (Finset.mem_singleton_self 0))
  have hMmem : M - 1 ∈ selectedIndices M t := by
    rw [hsel, Finset.mem_sort]
    exact Finset.mem_union_right _ (Finset.mem_singleton_self (M - 1))
  have hx0 : xs[0]? = some (xs.get ⟨0, by omega⟩) := List.getElem?_eq_getElem (by omega)
  have hxM : xs[M - 1]? = some (xs.get ⟨M - 1, by omega⟩) := List.getElem?_eq_getElem (by omega)
  refine ⟨by omega, by omega, ?_, ?_, ?_⟩
  · rw [hthin, List.head?_eq_getElem? xs]
    rw [show xs[0]? = some (xs.get ⟨0, by omega⟩) from hx0]
    exact filterMap_head?_some _ _ 0 _ (sorted_head?_zero _ hsorted_le h0mem) hx0
  · rw [hthin, List.getLast?_eq_getElem? xs]
    rw [show xs[xs.length - 1]? = some (xs.get ⟨M - 1, by omega⟩) from hxM]
    have hmax : ∀ y ∈ selectedIndices M t, y ≤ M - 1 := by
      intro y hy
      have := hmemlt y hy
      omega
    exact filterMap_getLast?_some _ _ (M - 1) _ hallsome
      (sorted_getLast?_max _ (M - 1) hsorted_le hMmem hmax) hxM
  · rw [hsel]
    exact Finset.sort_sorted_lt _

/-- Witness for C2 at the concrete input `[10, 20, 30]`, target 2. -/
theorem thin_keyframes_contract_witness :
    (thin_keyframes [10, 20, 30] (some 2)).length ≤ (2 : ℤ).toNat ∧
    min ([10, 20, 30] : List ℕ).length (2 : ℤ).toNat ≤ (thin_keyframes [10, 20, 30] (some 2)).length ∧
    (thin_keyframes [10, 20, 30] (some 2)).head? = ([10, 20, 30] : List ℕ).head? ∧
    (thin_keyframes [10, 20, 30] (some 2)).getLast? = ([10, 20, 30] : List ℕ).getLast? ∧
    (selectedIndices ([10, 20, 30] : List ℕ).length 2).Sorted (· < ·) :=
  thin_keyframes_contract [10, 20, 30] 2 (by decide) (by decide)

/-- C6: whenever the target count is absent, at most 1, or at least the
input length, `thin_keyframes` returns its input unchanged. -/
theorem thin_keyframes_noop {α : Type} (xs : List α) (t : Option ℤ)
    (h : ∀ v, t = some v → v ≤ 1 ∨ (xs.length : ℤ) ≤ v) :
    thin_keyframes xs t = xs := by
  cases t with
  | none => rfl
  | some v =>
    show (if v ≤ 1 ∨ ((xs.length : ℤ)) ≤ v then xs
      else (selectedIndices xs.length v).filterMap (fun idx => xs[idx]?)) = xs
    rw [if_pos (h v rfl)]

/-- Witness for C6 at the concrete input `[1, 2, 3]`, target 7. -/
theorem thin_keyframes_noop_witness :
    thin_keyframes [1, 2, 3] (some 7) = ([1, 2, 3] : List ℕ) :=
  thin_keyframes_noop [1, 2, 3] (some 7) (by
    intro v hv
    injection hv with h
    subst h
    right
    decide)

/-! ### Claim C8: bearing normalization -/

theorem pymodR_bounds (a : ℝ) : 0 ≤ pymodR a 360 ∧ pymodR a 360 < 360 := by
  unfold pymodR
  have h1 : ((⌊a / 360⌋ : ℝ)) ≤ a / 360 := Int.floor_le (a / 360)
  have h2 : a / 360 < (⌊a / 360⌋ : ℝ) + 1 := Int.lt_floor_add_one (a / 360)
  have h3 : (360 : ℝ) * ((⌊a / 360⌋ : ℝ)) ≤ 360 * (a / 360) := by linarith
  have h4 : 360 * (a / 360) < 360 * ((⌊a / 360⌋ : ℝ) + 1) := by linarith
  have h5 : (360 : ℝ) * (a / 360) = a := by ring
  constructor <;> nlinarith

/-- C8: for every pair of coordinate inputs, `calculate_bearing` returns a
value in `(-180, 180]`, obtained by first wrapping the raw spherical bearing
into `[0, 360)` (Python `%`) and then subtracting 360 exactly when the
wrapped value exceeds 180. -/
theorem calculate_bearing_range (lat1 lon1 lat2 lon2 : ℝ) :
    (-180 < calculate_bearing lat1 lon1 lat2 lon2 ∧
      calculate_bearing lat1 lon1 lat2 lon2 ≤ 180) ∧
    (0 ≤ pymodR (raw_initial_bearing lat1 lon1 lat2 lon2 + 360) 360 ∧
      pymodR (raw_initial_bearing lat1 lon1 lat2 lon2 + 360) 360 < 360) ∧
    calculate_bearing lat1 lon1 lat2 lon2 =
      (if 180 < pymodR (raw_initial_bearing lat1 lon1 lat2 lon2 + 360) 360
       then pymodR (raw_initial_bearing lat1 lon1 lat2 lon2 + 360) 360 - 360
       else pymodR (raw_initial_bearing lat1 lon1 lat2 lon2 + 360) 360) := by
  have hb := pymodR_bounds (raw_initial_bearing lat1 lon1 lat2 lon2 + 360)
  have heq : calculate_bearing lat1 lon1 lat2 lon2 =
      (if 180 < pymodR (raw_initial_bearing lat1 lon1 lat2 lon2 + 360) 360
       then pymodR (raw_initial_bearing lat1 lon1 lat2 lon2 + 360) 360 - 360
       else pymodR (raw_initial_bearing lat1 lon1 lat2 lon2 + 360) 360) := rfl
  refine ⟨?_, hb, heq⟩
  rw [heq]
  split_ifs with h
  · constructor <;> linarith [hb.1, hb.2]
  · constructor <;> linarith [hb.1, hb.2]

/-! ### Lemmas: unfolding the placemark loop -/

theorem except_map_ok {ε α β : Type} (f : α → β) (x : Except ε α) (b : β)
    (h : x.map f = .ok b) : ∃ a, x = .ok a ∧ f a = b := by
  cases x with
  | error e => simp [Except.map] at h
  | ok a =>
    refine ⟨a, rfl, ?_⟩
    simpa [Except.map] using h

theorem buildPlacemarks_nil (bF : ℚ → ℚ → ℚ → ℚ → ℚ) (s : MissionSettings)
    (pois : List (String × (ℚ × ℚ))) (num : ℕ) (sa tp : ℚ) (i g a : ℕ) :
    buildPlacemarks bF s pois num sa tp [] i g a = .ok [] := rfl

theorem buildPlacemarks_cons_none (bF : ℚ → ℚ → ℚ → ℚ → ℚ) (s : MissionSettings)
    (pois : List (String × (ℚ × ℚ))) (num : ℕ) (sa tp : ℚ)
    (kf : Keyframe) (origin : String) (rest : List (Keyframe × String)) (i g a : ℕ)
    (hp : parseCoord kf = none) :
    buildPlacemarks bF s pois num sa tp ((kf, origin) :: rest) i g a =
      (buildPlacemarks bF s pois num sa tp rest (i + 1) g a).map
        (fun ps => { content := none } :: ps) := by
  simp only [buildPlacemarks, hp]

theorem buildPlacemarks_cons_err (bF : ℚ → ℚ → ℚ → ℚ → ℚ) (s : MissionSettings)
    (pois : List (String × (ℚ × ℚ))) (num : ℕ) (sa tp : ℚ)
    (kf : Keyframe) (origin : String) (rest : List (Keyframe × String)) (i g a : ℕ)
    (lat lon alt : ℚ) (e : BuildError)
    (hp : parseCoord kf = some (lat, lon, alt))
    (hr : resolveHeading bF s pois num i origin lat lon = .error e) :
    buildPlacemarks bF s pois num sa tp ((kf, origin) :: rest) i g a = .error e := by
  simp only [buildPlacemarks, hp, hr]

theorem buildPlacemarks_cons_some (bF : ℚ → ℚ → ℚ → ℚ → ℚ) (s : MissionSettings)
    (pois : List (String × (ℚ × ℚ))) (num : ℕ) (sa tp : ℚ)
    (kf : Keyframe) (origin : String) (rest : List (Keyframe × String)) (i g a : ℕ)
    (lat lon alt : ℚ) (hinfo : HeadingInfo)
    (hp : parseCoord kf = some (lat, lon, alt))
    (hr : resolveHeading bF s pois num i origin lat lon = .ok hinfo) :
    buildPlacemarks bF s pois num sa tp ((kf, origin) :: rest) i g a =
      (buildPlacemarks bF s pois num sa tp rest (i + 1)
          (g + (buildActionGroups num i g a tp).length)
          (a + (buildActionGroups num i g a tp).length)).map
        (fun ps =>
          { content := some (mkContent s num sa lat lon alt i hinfo
              (buildActionGroups num i g a tp)) } :: ps) := by
  simp only [buildPlacemarks, hp, hr]

/-! ### Lemmas: structure of a successful build -/

theorem buildPlacemarks_length (bF : ℚ → ℚ → ℚ → ℚ → ℚ) (s : MissionSettings)
    (pois : List (String × (ℚ × ℚ))) (num : ℕ) (sa tp : ℚ) :
    ∀ (l : List (Keyframe × String)) (i g a : ℕ) (ps : List Placemark),
      buildPlacemarks bF s pois num sa tp l i g a = .ok ps → ps.length = l.length := by
  intro l
  induction l with
  | nil =>
    intro i g a ps h
    rw [buildPlacemarks_nil] at h
    cases h
    rfl
  | cons head rest ih =>
    intro i g a ps h
    obtain ⟨kf, origin⟩ := head
    cases hp : parseCoord kf with
    | none =>
      rw [buildPlacemarks_cons_none bF s pois num sa tp kf origin rest i g a hp] at h
      rcases except_map_ok _ _ _ h with ⟨ps', hps', hf⟩
      rw [← hf]
      simp only [List.length_cons]
      rw [ih _ _ _ _ hps']
    | some val =>
      obtain ⟨lat, lon, alt⟩ := val
      cases hr : resolveHeading bF s pois num i origin lat lon with
      | error e =>
        rw [buildPlacemarks_cons_err bF s pois num sa tp kf origin rest i g a lat lon alt e hp hr] at h
        cases h
      | ok hinfo =>
        rw [buildPlacemarks_cons_some bF s pois num sa tp kf origin rest i g a lat lon alt hinfo hp hr] at h
        rcases except_map_ok _ _ _ h with ⟨ps', hps', hf⟩
        rw [← hf]
        simp only [List.length_cons]
        rw [ih _ _ _ _ hps']

theorem buildPlacemarks_content (bF : ℚ → ℚ → ℚ → ℚ → ℚ) (s : MissionSettings)
    (pois : List (String × (ℚ × ℚ))) (num : ℕ) (sa tp : ℚ) :
    ∀ (l : List (Keyframe × String)) (i g a : ℕ) (ps : List Placemark),
      buildPlacemarks bF s pois num sa tp l i g a = .ok ps →
      ∀ (j : ℕ) (kf : Keyframe) (origin : String),
        l[j]? = some (kf, origin) →
        ((parseCoord kf = none → ps[j]? = some { content := none }) ∧
         (∀ lat lon alt, parseCoord kf = some (lat, lon, alt) →
            ∃ c, ps[j]? = some { content := some c } ∧
              c.index = i + j ∧
              c.executeHeight =
                (if s.altitudeType ≠ some "WGS84" then alt - sa else alt) ∧
              resolveHeading bF s pois num (i + j) origin lat lon =
                .ok { mode := c.headingMode, angle := c.headingAngle,
                      enable := c.headingAngleEnable })) := by
  intro l
  induction l with
  | nil =>
    intro i g a ps h j kf origin hj
    simp at hj
  | cons head rest ih =>
    intro i g a ps h j kf origin hj
    obtain ⟨kfh, oh⟩ := head
    cases hp : parseCoord kfh with
    | none =>
      rw [buildPlacemarks_cons_none bF s pois num sa tp kfh oh rest i g a hp] at h
      rcases except_map_ok _ _ _ h with ⟨ps', hps', hf⟩
      rw [← hf]
      cases j with
      | zero =>
        rw [List.getElem?_cons_zero, Option.some.injEq, Prod.mk.injEq] at hj
        obtain ⟨rfl, rfl⟩ := hj
        constructor
        · intro _
          exact List.getElem?_cons_zero
        · intro lat lon alt hps
          rw [hp] at hps
          cases hps
      | succ j' =>
        rw [List.getElem?_cons_succ] at hj
        have hrec := ih (i + 1) g a ps' hps' j' kf origin hj
        constructor
        · intro hpn
          rw [List.getElem?_cons_succ]
          exact hrec.1 hpn
        · intro lat lon alt hps
          rcases hrec.2 lat lon alt hps with ⟨c, hc1, hc2, hc3, hc4⟩
          refine ⟨c, ?_, by omega, hc3, ?_⟩
          · rw [List.getElem?_cons_succ]
            exact hc1
          · rw [show i + (j' + 1) = i + 1 + j' from by omega]
            exact hc4
    | some val =>
      obtain ⟨lat0, lon0, alt0⟩ := val
      cases hr : resolveHeading bF s pois num i oh lat0 lon0 with
      | error e =>
        rw [buildPlacemarks_cons_err bF s pois num sa tp kfh oh rest i g a lat0 lon0 alt0 e hp hr] at h
        cases h
      | ok hinfo =>
        rw [buildPlacemarks_cons_some bF s pois num sa tp kfh oh rest i g a lat0 lon0 alt0 hinfo hp hr] at h
        rcases except_map_ok _ _ _ h with ⟨ps', hps', hf⟩
        rw [← hf]
        cases j with
        | zero =>
          rw [List.getElem?_cons_zero, Option.some.injEq, Prod.mk.injEq] at hj
          obtain ⟨rfl, rfl⟩ := hj
          constructor
          · intro hpn
            rw [hp] at hpn
            cases hpn
          · intro lat lon alt hps
            rw [hp, Option.some.injEq, Prod.mk.injEq, Prod.mk.injEq] at hps
            obtain ⟨rfl, rfl, rfl⟩ := hps
            refine ⟨mkContent s num sa lat0 lon0 alt0 i hinfo
              (buildActionGroups num i g a tp), List.getElem?_cons_zero,
              by simp [mkContent], ?_, ?_⟩
            · simp [mkContent]
            · simpa [mkContent] using hr
        | succ j' =>
          rw [List.getElem?_cons_succ] at hj
          have hrec := ih (i + 1) (g + (buildActionGroups num i g a tp).length)
            (a + (buildActionGroups num i g a tp).length) ps' hps' j' kf origin hj
          constructor
          · intro hpn
            rw [List.getElem?_cons_succ]
            exact hrec.1 hpn
          · intro lat lon alt hps
            rcases hrec.2 lat lon alt hps with ⟨c, hc1, hc2, hc3, hc4⟩
            refine ⟨c, ?_, by omega, hc3, ?_⟩
            · rw [List.getElem?_cons_succ]
              exact hc1
            · rw [show i + (j' + 1) = i + 1 + j' from by omega]
              exact hc4

theorem buildPlacemarks_indices (bF : ℚ → ℚ → ℚ → ℚ → ℚ) (s : MissionSettings)
    (pois : List (String × (ℚ × ℚ))) (num : ℕ) (sa tp : ℚ) :
    ∀ (l : List (Keyframe × String)) (i g a : ℕ) (ps : List Placemark),
      (∀ p ∈ l, parseCoord p.1 ≠ none) →
      buildPlacemarks bF s pois num sa tp l i g a = .ok ps →
      psIndices ps = List.range' i l.length := by
  intro l
  induction l with
  | nil =>
    intro i g a ps _ h
    rw [buildPlacemarks_nil] at h
    cases h
    rfl
  | cons head rest ih =>
    intro i g a ps hall h
    obtain ⟨kfh, oh⟩ := head
    cases hp : parseCoord kfh with
    | none =>
      exact absurd hp (hall (kfh, oh) (by simp))
    | some val =>
      obtain ⟨lat0, lon0, alt0⟩ := val
      cases hr : resolveHeading bF s pois num i oh lat0 lon0 with
      | error e =>
        rw [buildPlacemarks_cons_err bF s pois num sa tp kfh oh rest i g a lat0 lon0 alt0 e hp hr] at h
        cases h
      | ok hinfo =>
        rw [buildPlacemarks_cons_some bF s pois num sa tp kfh oh rest i g a lat0 lon0 alt0 hinfo hp hr] at h
        rcases except_map_ok _ _ _ h with ⟨ps', hps', hf⟩
        rw [← hf]
        have hrec := ih (i + 1) (g + (buildActionGroups num i g a tp).length)
          (a + (buildActionGroups num i g a tp).length) ps'
          (fun p hpmem => hall p (List.mem_cons_of_mem _ hpmem)) hps'
        simp only [psIndices, List.filterMap_cons, List.length_cons, List.range',
          List.map_cons]
        rw [show (List.filterMap Placemark.content ps').map PlacemarkContent.index =
          psIndices ps' from rfl, hrec]
        rfl

theorem buildActionGroups_groupIds (num i g a : ℕ) (tp : ℚ) :
    (buildActionGroups num i g a tp).map ActionGroup.actionGroupId =
      List.range' g (buildActionGroups num i g a tp).length ∧
    (buildActionGroups num i g a tp).map ActionGroup.actionId =
      List.range' a (buildActionGroups num i g a tp).length := by
  unfold buildActionGroups
  split_ifs <;> simp [List.range']

theorem buildPlacemarks_ids (bF : ℚ → ℚ → ℚ → ℚ → ℚ) (s : MissionSettings)
    (pois : List (String × (ℚ × ℚ))) (num : ℕ) (sa tp : ℚ) :
    ∀ (l : List (Keyframe × String)) (i g a : ℕ) (ps : List Placemark),
      buildPlacemarks bF s pois num sa tp l i g a = .ok ps →
      ∃ n, psGroupIds ps = List.range' g n ∧ psActionIds ps = List.range' a n := by
  intro l
  induction l with
  | nil =>
    intro i g a ps h
    rw [buildPlacemarks_nil] at h
    cases h
    exact ⟨0, rfl, rfl⟩
  | cons head rest ih =>
    intro i g a ps h
    obtain ⟨kfh, oh⟩ := head
    cases hp : parseCoord kfh with
    | none =>
      rw [buildPlacemarks_cons_none bF s pois num sa tp kfh oh rest i g a hp] at h
      rcases except_map_ok _ _ _ h with ⟨ps', hps', hf⟩
      rw [← hf]
      rcases ih (i + 1) g a ps' hps' with ⟨n, hg, ha⟩
      refine ⟨n, ?_, ?_⟩
      · simp only [psGroupIds, List.filterMap_cons]
        exact hg
      · simp only [psActionIds, List.filterMap_cons]
        exact ha
    | some val =>
      obtain ⟨lat0, lon0, alt0⟩ := val
      cases hr : resolveHeading bF s pois num i oh lat0 lon0 with
      | error e =>
        rw [buildPlacemarks_cons_err bF s pois num sa tp kfh oh rest i g a lat0 lon0 alt0 e hp hr] at h
        cases h
      | ok hinfo =>
        rw [buildPlacemarks_cons_some bF s pois num sa tp kfh oh rest i g a lat0 lon0 alt0 hinfo hp hr] at h
        rcases except_map_ok _ _ _ h with ⟨ps', hps', hf⟩
        rw [← hf]
        rcases ih (i + 1) (g + (buildActionGroups num i g a tp).length)
          (a + (buildActionGroups num i g a tp).length) ps' hps' with ⟨n, hg, ha⟩
        rcases buildActionGroups_groupIds num i g a tp with ⟨hmg, hma⟩
        refine ⟨n + (buildActionGroups num i g a tp).length, ?_, ?_⟩
        · simp only [psGroupIds, List.filterMap_cons, List.flatMap_cons]
          rw [show ((List.filterMap Placemark.content ps').flatMap
              (fun c => c.actionGroups.map ActionGroup.actionGroupId)) =
            psGroupIds ps' from rfl, hg]
          rw [show (mkContent s num sa lat0 lon0 alt0 i hinfo
              (buildActionGroups num i g a tp)).actionGroups =
            buildActionGroups num i g a tp from rfl]
          rw [hmg]
          have happ := List.range'_append g (buildActionGroups num i g a tp).length n 1
          rw [one_mul] at happ
          exact happ
        · simp only [psActionIds, List.filterMap_cons, List.flatMap_cons]
          rw [show ((List.filterMap Placemark.content ps').flatMap
              (fun c => c.actionGroups.map ActionGroup.actionId)) =
            psActionIds ps' from rfl, ha]
          rw [show (mkContent s num sa lat0 lon0 alt0 i hinfo
              (buildActionGroups num i g a tp)).actionGroups =
            buildActionGroups num i g a tp from rfl]
          rw [hma]
          have happ := List.range'_append a (buildActionGroups num i g a tp).length n 1
          rw [one_mul] at happ
          exact happ

theorem resolveHeading_manual_none (bF : ℚ → ℚ → ℚ → ℚ → ℚ) (s : MissionSettings)
    (pois : List (String × (ℚ × ℚ))) (num i : ℕ) (origin : String) (lat lon : ℚ)
    (hmode : s.heading_mode.getD "Follow Course" = "Manual Fixed Heading")
    (hnone : s.manual_heading = none) :
    resolveHeading bF s pois num i origin lat lon = .error .manualHeadingNone := by
  unfold resolveHeading
  rw [hmode, if_neg (by decide), if_pos rfl, hnone]

theorem buildPlacemarks_manual_none (bF : ℚ → ℚ → ℚ → ℚ → ℚ) (s : MissionSettings)
    (pois : List (String × (ℚ × ℚ))) (num : ℕ) (sa tp : ℚ)
    (hmode : s.heading_mode.getD "Follow Course" = "Manual Fixed Heading")
    (hnone : s.manual_heading = none) :
    ∀ (l : List (Keyframe × String)) (i g a : ℕ),
      (∃ p ∈ l, parseCoord p.1 ≠ none) →
      buildPlacemarks bF s pois num sa tp l i g a = .error .manualHeadingNone := by
  intro l
  induction l with
  | nil =>
    intro i g a h
    rcases h with ⟨p, hp, _⟩
    cases hp
  | cons head rest ih =>
    intro i g a h
    obtain ⟨kf, origin⟩ := head
    cases hp : parseCoord kf with
    | some val =>
      obtain ⟨lat, lon, alt⟩ := val
      exact buildPlacemarks_cons_err bF s pois num sa tp kf origin rest i g a lat lon alt
        .manualHeadingNone hp
        (resolveHeading_manual_none bF s pois num i origin lat lon hmode hnone)
    | none =>
      have hrest : ∃ p ∈ rest, parseCoord p.1 ≠ none := by
        rcases h with ⟨p, hpmem, hpne⟩
        rcases List.mem_cons.mp hpmem with heq | hmem
        · rw [heq] at hpne
          exact absurd hp hpne
        · exact ⟨p, hmem, hpne⟩
      rw [buildPlacemarks_cons_none bF s pois num sa tp kf origin rest i g a hp,
        ih (i + 1) g a hrest]
      rfl

/-! ### Lemmas: inverting a successful `create_dji_wpml` -/

theorem create_cons_noalt (bF dF : ℚ → ℚ → ℚ → ℚ → ℚ) (kf0 : Keyframe) (o0 : String)
    (rest : List (Keyframe × String)) (s : MissionSettings)
    (pois : List (String × (ℚ × ℚ))) (ha : kf0.altitude = none) :
    create_dji_wpml bF dF ((kf0, o0) :: rest) s pois = .error .missingFirstAltitude := by
  simp only [create_dji_wpml, ha]

theorem create_cons_eq (bF dF : ℚ → ℚ → ℚ → ℚ → ℚ) (kf0 : Keyframe) (o0 : String)
    (rest : List (Keyframe × String)) (s : MissionSettings)
    (pois : List (String × (ℚ × ℚ))) (a0 : ℚ) (ha : kf0.altitude = some a0) :
    create_dji_wpml bF dF ((kf0, o0) :: rest) s pois =
      (buildPlacemarks bF s pois ((kf0, o0) :: rest).length a0 (resolveTargetPitch s)
        ((kf0, o0) :: rest) 0 1 1).map
        (fun pms =>
          { config :=
              { flyToWaylineMode := "safely",
                finishAction := s.finishAction.getD DEFAULT_FINISH_ACTION,
                exitOnRCLost := "executeLostAction",
                executeRCLostAction := s.rcLostAction.getD DEFAULT_RC_LOST_ACTION,
                globalTransitionalSpeed := s.transitionalSpeed.getD DEFAULT_TRANSITIONAL_SPEED_MPS,
                droneEnumValue := DRONE_ENUM_VALUE,
                droneSubEnumValue := DRONE_SUB_ENUM_VALUE },
            folder :=
              { templateId := 0,
                executeHeightMode := s.altitudeType.getD DEFAULT_ALTITUDE_TYPE,
                waylineId := 0,
                distance := totalDistance dF ((kf0, o0) :: rest) none,
                duration :=
                  if 0 < s.speed.getD DEFAULT_SPEED_MPS then
                    totalDistance dF ((kf0, o0) :: rest) none / s.speed.getD DEFAULT_SPEED_MPS
                  else 0,
                autoFlightSpeed := s.speed.getD DEFAULT_SPEED_MPS },
            placemarks := pms }) := by
  simp only [create_dji_wpml, ha]

theorem create_ok_inv (bF dF : ℚ → ℚ → ℚ → ℚ → ℚ)
    (tagged : List (Keyframe × String)) (s : MissionSettings)
    (pois : List (String × (ℚ × ℚ))) (doc : WpmlDoc)
    (h : create_dji_wpml bF dF tagged s pois = .ok doc) :
    ∃ kf0 o0 rest a0,
      tagged = (kf0, o0) :: rest ∧ kf0.altitude = some a0 ∧
      buildPlacemarks bF s pois tagged.length a0 (resolveTargetPitch s) tagged 0 1 1 =
        .ok doc.placemarks := by
  cases tagged with
  | nil =>
    exact absurd h (by simp [create_dji_wpml])
  | cons head rest =>
    obtain ⟨kf0, o0⟩ := head
    cases ha : kf0.altitude with
    | none =>
      rw [create_cons_noalt bF dF kf0 o0 rest s pois ha] at h
      cases h
    | some a0 =>
      rw [create_cons_eq bF dF kf0 o0 rest s pois a0 ha] at h
      rcases except_map_ok _ _ _ h with ⟨ps, hps, hf⟩
      refine ⟨kf0, o0, rest, a0, rfl, ha, ?_⟩
      rw [← hf]
      exact hps

/-! ### Claim C9: skipped keyframes still emit an empty Placemark element -/

/-- C9: for every keyframe whose coordinate fields are missing or
non-numeric, `create_dji_wpml` still appends a Placemark element with no
child elements to the output folder at that position before skipping to the
next keyframe, so the document contains one empty Placemark per skipped
point (and one Placemark per keyframe overall). -/
theorem skipped_placemark_empty (bF dF : ℚ → ℚ → ℚ → ℚ → ℚ)
    (tagged : List (Keyframe × String)) (s : MissionSettings)
    (pois : List (String × (ℚ × ℚ))) (doc : WpmlDoc)
    (h : create_dji_wpml bF dF tagged s pois = .ok doc) :
    doc.placemarks.length = tagged.length ∧
    ∀ (j : ℕ) (kf : Keyframe) (origin : String),
      tagged[j]? = some (kf, origin) → parseCoord kf = none →
      doc.placemarks[j]? = some { content := none } := by
  rcases create_ok_inv bF dF tagged s pois doc h with ⟨kf0, o0, rest, a0, htag, ha, hbuild⟩
  constructor
  · exact buildPlacemarks_length bF s pois tagged.length a0 (resolveTargetPitch s)
      tagged 0 1 1 doc.placemarks hbuild
  · intro j kf origin hj hpn
    exact (buildPlacemarks_content bF s pois tagged.length a0 (resolveTargetPitch s)
      tagged 0 1 1 doc.placemarks hbuild j kf origin hj).1 hpn

/-- Witness for C9 on a concrete run whose middle keyframe is skipped. -/
theorem skipped_placemark_empty_witness :
    (buildResultDoc runSkipMiddle).placemarks.length = kfsSkipMiddle.length ∧
    (buildResultDoc runSkipMiddle).placemarks[1]? = some { content := none } :=
  ⟨(skipped_placemark_empty zeroGeo zeroGeo kfsSkipMiddle followSettings []
      (buildResultDoc runSkipMiddle) rfl).1,
   (skipped_placemark_empty zeroGeo zeroGeo kfsSkipMiddle followSettings []
      (buildResultDoc runSkipMiddle) rfl).2 1 kfNoLat "a.json" rfl rfl⟩

/-! ### Claim C7: action-group and action IDs -/

/-- C7: across one generated document, the action-group IDs and the action
IDs each form the sequence `1, 2, ..., K` in emission order — strictly
increasing from 1, no repeats, never reset per placemark. -/
theorem action_ids_strictly_increasing (bF dF : ℚ → ℚ → ℚ → ℚ → ℚ)
    (tagged : List (Keyframe × String)) (s : MissionSettings)
    (pois : List (String × (ℚ × ℚ))) (doc : WpmlDoc)
    (h : create_dji_wpml bF dF tagged s pois = .ok doc) :
    docGroupIds doc = List.range' 1 (docGroupIds doc).length ∧
    docActionIds doc = List.range' 1 (docActionIds doc).length := by
  rcases create_ok_inv bF dF tagged s pois doc h with ⟨kf0, o0, rest, a0, htag, ha, hbuild⟩
  rcases buildPlacemarks_ids bF s pois tagged.length a0 (resolveTargetPitch s)
    tagged 0 1 1 doc.placemarks hbuild with ⟨n, hg, hactids⟩
  have hdg : docGroupIds doc = psGroupIds doc.placemarks := rfl
  have hda : docActionIds doc = psActionIds doc.placemarks := rfl
  constructor
  · rw [hdg, hg, List.length_range']
  · rw [hda, hactids, List.length_range']

/-- Witness for C7 on a concrete successful three-placemark build. -/
theorem action_ids_strictly_increasing_witness :
    docGroupIds (buildResultDoc runThreeManual) =
      List.range' 1 (docGroupIds (buildResultDoc runThreeManual)).length ∧
    docActionIds (buildResultDoc runThreeManual) =
      List.range' 1 (docActionIds (buildResultDoc runThreeManual)).length :=
  action_ids_strictly_increasing zeroGeo zeroGeo kfsThreeValid manualSettings []
    (buildResultDoc runThreeManual) rfl

/-! ### Claim C1: placemark indices -/

/-- C1 counterexample: with three keyframes whose middle one fails to parse,
the build succeeds and the emitted `wpml:index` values are `[0, 2]` — a
skipped keyframe consumes its index, so the emitted indices are not the
contiguous `0..N-1` claimed (here `N = 2` but the indices are not `[0, 1]`). -/
theorem placemark_indices_counterexample :
    exceptOk runSkipMiddle = true ∧
    emittedIndices (buildResultDoc runSkipMiddle) = [0, 2] ∧
    emittedIndices (buildResultDoc runSkipMiddle) ≠
      List.range (emittedIndices (buildResultDoc runSkipMiddle)).length := by
  decide

/-- C1 amended: the index written for each emitted placemark is its
keyframe's position in the thinned sequence; when every keyframe's
coordinates parse, the emitted indices are exactly `0..N-1` with `N` the
count of emitted placemarks (a skipped keyframe would instead consume its
index and leave a gap). -/
theorem placemark_indices_amended (bF dF : ℚ → ℚ → ℚ → ℚ → ℚ)
    (tagged : List (Keyframe × String)) (s : MissionSettings)
    (pois : List (String × (ℚ × ℚ))) (doc : WpmlDoc)
    (hall : ∀ p ∈ tagged, parseCoord p.1 ≠ none)
    (h : create_dji_wpml bF dF tagged s pois = .ok doc) :
    emittedIndices doc = List.range tagged.length ∧
    emittedIndices doc = List.range (emittedIndices doc).length := by
  rcases create_ok_inv bF dF tagged s pois doc h with ⟨kf0, o0, rest, a0, htag, ha, hbuild⟩
  have hidx : psIndices doc.placemarks = List.range' 0 tagged.length :=
    buildPlacemarks_indices bF s pois tagged.length a0 (resolveTargetPitch s)
      tagged 0 1 1 doc.placemarks hall hbuild
  have he : emittedIndices doc = psIndices doc.placemarks := rfl
  constructor
  · rw [he, hidx, ← List.range_eq_range']
  · rw [he, hidx, List.length_range', ← List.range_eq_range']

/-- Witness for the amended C1 on a concrete all-valid run. -/
theorem placemark_indices_amended_witness :
    emittedIndices (buildResultDoc runThreeManual) = List.range kfsThreeValid.length ∧
    emittedIndices (buildResultDoc runThreeManual) =
      List.range (emittedIndices (buildResultDoc runThreeManual)).length :=
  placemark_indices_amended zeroGeo zeroGeo kfsThreeValid manualSettings []
    (buildResultDoc runThreeManual) (by decide) rfl

/-! ### Claim C4: the altitude reference and executeHeight -/

unseal Rat.sub in
/-- C4 counterexample: the first keyframe has an unparseable latitude (so it
is not a "valid" keyframe) but a parseable altitude of 50; the second
keyframe is valid with altitude 100.  In relative altitude mode the build
succeeds and writes `executeHeight = 50` for the valid keyframe — the
reference is the altitude of the *very first* keyframe (50), not of the
first valid keyframe (100), which would give `100 - 100 = 0`. -/
theorem execute_height_counterexample :
    exceptOk runBadFirstLat = true ∧
    parseCoord kfNoLat = none ∧
    executeHeightAt runBadFirstLat 1 = some 50 ∧
    firstValidAltitude kfsBadFirstLat = some 100 ∧
    (100 - 100 : ℚ) = 0 ∧ (50 : ℚ) ≠ (0 : ℚ) := by
  decide

/-- C4 amended: the altitude reference is the altitude of the *very first*
keyframe of the thinned sequence (the build aborts when that altitude is
missing); every emitted placemark's executeHeight equals its altitude minus
that reference when altitudeType is not WGS84 (in particular for
relative-to-start), or the raw altitude when altitudeType is WGS84. -/
theorem execute_height_amended (bF dF : ℚ → ℚ → ℚ → ℚ → ℚ)
    (tagged : List (Keyframe × String)) (s : MissionSettings)
    (pois : List (String × (ℚ × ℚ))) (doc : WpmlDoc)
    (kf0 : Keyframe) (o0 : String) (rest : List (Keyframe × String)) (a0 : ℚ)
    (htag : tagged = (kf0, o0) :: rest) (ha : kf0.altitude = some a0)
    (h : create_dji_wpml bF dF tagged s pois = .ok doc)
    (j : ℕ) (kf : Keyframe) (origin : String) (lat lon alt : ℚ)
    (hj : tagged[j]? = some (kf, origin))
    (hp : parseCoord kf = some (lat, lon, alt)) :
    ∃ c, doc.placemarks[j]? = some { content := some c } ∧
      c.executeHeight = (if s.altitudeType ≠ some "WGS84" then alt - a0 else alt) := by
  rcases create_ok_inv bF dF tagged s pois doc h with ⟨kf0', o0', rest', a0', htag', ha', hbuild⟩
  subst htag
  injection htag' with h1 h2
  injection h1 with h3 h4
  rw [← h3] at ha'
  rw [ha] at ha'
  injection ha' with h5
  subst h5
  rcases (buildPlacemarks_content bF s pois ((kf0, o0) :: rest).length a0
    (resolveTargetPitch s) ((kf0, o0) :: rest) 0 1 1 doc.placemarks hbuild
    j kf origin hj).2 lat lon alt hp with ⟨c, hc1, hc2, hc3, hc4⟩
  exact ⟨c, hc1, hc3⟩

/-- Witness for the amended C4 on a concrete run: the second placemark of a
three-keyframe relative-mode build. -/
theorem execute_height_amended_witness :
    ∃ c, (buildResultDoc runThreeManual).placemarks[1]? = some { content := some c } ∧
      c.executeHeight =
        (if manualSettings.altitudeType ≠ some "WGS84" then (100 : ℚ) - 50 else 100) :=
  execute_height_amended zeroGeo zeroGeo kfsThreeValid manualSettings []
    (buildResultDoc runThreeManual) kfA "a.json" [(kfB, "a.json"), (kfC, "a.json")] 50
    rfl rfl rfl 1 kfB "a.json" 11 21 100 rfl rfl

/-! ### Claim C3: the heading angle-enable flag -/

/-- C3 counterexample: two valid keyframes under the POI heading mode (a
mode other than Follow Course) with an empty POI map build successfully,
but both placemarks carry angle-enable `false` — the endpoints do not get
the flag, contradicting the claim that exactly placemarks 0 and N-1 have it
true under every non-FollowCourse mode. -/
theorem heading_enable_counterexample :
    poiSettings.heading_mode.getD "Follow Course" = "Point Towards File's POI" ∧
    exceptOk runPoiNoPois = true ∧
    (buildResultDoc runPoiNoPois).placemarks.length = 2 ∧
    enableFlags (buildResultDoc runPoiNoPois) = [false, false] := by
  decide

/-- C3 amended: for a document built from N ≥ 2 keyframes whose coordinates
all parse, under Manual Fixed Heading, or under the POI mode with a POI
present for every keyframe's origin file, a placemark's angle-enable flag is
true exactly when it is placemark 0 or placemark N-1. -/
theorem heading_enable_amended (bF dF : ℚ → ℚ → ℚ → ℚ → ℚ)
    (tagged : List (Keyframe × String)) (s : MissionSettings)
    (pois : List (String × (ℚ × ℚ))) (doc : WpmlDoc)
    (h : create_dji_wpml bF dF tagged s pois = .ok doc)
    (_hN : 2 ≤ tagged.length)
    (hall : ∀ p ∈ tagged, parseCoord p.1 ≠ none)
    (hmode : s.heading_mode.getD "Follow Course" = "Manual Fixed Heading" ∨
      (s.heading_mode.getD "Follow Course" = "Point Towards File's POI" ∧
       ∀ p ∈ tagged, lookupPoi pois p.2 ≠ none))
    (j : ℕ) (kf : Keyframe) (origin : String)
    (hj : tagged[j]? = some (kf, origin)) :
    ∃ c, doc.placemarks[j]? = some { content := some c } ∧
      (c.headingAngleEnable = true ↔ (j = 0 ∨ j = tagged.length - 1)) := by
  rcases create_ok_inv bF dF tagged s pois doc h with ⟨kf0, o0, rest, a0, htag, ha, hbuild⟩
  have hkfmem : (kf, origin) ∈ tagged := List.getElem?_mem hj
  have hpar := hall (kf, origin) hkfmem
  cases hx : parseCoord kf with
  | none => exact absurd hx hpar
  | some val =>
    obtain ⟨lat, lon, alt⟩ := val
    rcases (buildPlacemarks_content bF s pois tagged.length a0 (resolveTargetPitch s)
      tagged 0 1 1 doc.placemarks hbuild j kf origin hj).2 lat lon alt hx
      with ⟨c, hc1, hc2, hc3, hc4⟩
    refine ⟨c, hc1, ?_⟩
    rcases hmode with hman | ⟨hpoi, hpois⟩
    · cases hmh : s.manual_heading with
      | none =>
        rw [resolveHeading_manual_none bF s pois tagged.length (0 + j) origin lat lon
          hman hmh] at hc4
        cases hc4
      | some mh =>
        have hres : resolveHeading bF s pois tagged.length (0 + j) origin lat lon =
            .ok { mode := DEFAULT_HEADING_MODE_WPML, angle := mh,
                  enable := (0 + j) == 0 || (0 + j) == tagged.length - 1 } := by
          unfold resolveHeading
          rw [hman, if_neg (by decide), if_pos rfl, hmh]
        rw [hres] at hc4
        injection hc4 with h5
        injection h5 with hm han he
        rw [← he]
        simp
    · have hpo := hpois (kf, origin) hkfmem
      cases hlk : lookupPoi pois origin with
      | none => exact absurd hlk hpo
      | some cc =>
        obtain ⟨clat, clon⟩ := cc
        have hres : resolveHeading bF s pois tagged.length (0 + j) origin lat lon =
            .ok { mode := DEFAULT_HEADING_MODE_WPML, angle := bF lat lon clat clon,
                  enable := (0 + j) == 0 || (0 + j) == tagged.length - 1 } := by
          unfold resolveHeading
          rw [hpoi, if_pos rfl, hlk]
        rw [hres] at hc4
        injection hc4 with h5
        injection h5 with hm han he
        rw [← he]
        simp

/-- Witness for the amended C3: the last placemark of a three-placemark
manual-heading build. -/
theorem heading_enable_amended_witness :
    ∃ c, (buildResultDoc runThreeManual).placemarks[2]? = some { content := some c } ∧
      (c.headingAngleEnable = true ↔ ((2 : ℕ) = 0 ∨ (2 : ℕ) = kfsThreeValid.length - 1)) :=
  heading_enable_amended zeroGeo zeroGeo kfsThreeValid manualSettings []
    (buildResultDoc runThreeManual) rfl (by decide) (by decide) (Or.inl rfl)
    2 kfC "a.json" rfl

/-! ### Claim C10: Manual Fixed Heading with no manual heading -/

/-- C10 counterexample: a non-empty keyframe sequence (one keyframe with an
altitude but no parseable latitude/longitude) under Manual Fixed Heading
with no `manual_heading` builds *successfully* — no exception is raised,
because no keyframe ever reaches the heading-formatting code. -/
theorem manual_heading_missing_counterexample :
    kfsOnlyAlt ≠ [] ∧
    manualNoneSettings.heading_mode = some "Manual Fixed Heading" ∧
    manualNoneSettings.manual_heading = none ∧
    exceptOk runManualNoneOnlyAlt = true := by
  decide

/-- C10 amended: under Manual Fixed Heading with no `manual_heading` value,
if the first keyframe's altitude parses and at least one keyframe's
coordinates fully parse, `create_dji_wpml` raises (the `TypeError` from
formatting the `None` heading angle) while building the first such placemark
and produces no document; no settings validation happens before the build. -/
theorem manual_heading_missing_raises (bF dF : ℚ → ℚ → ℚ → ℚ → ℚ)
    (tagged : List (Keyframe × String)) (s : MissionSettings)
    (pois : List (String × (ℚ × ℚ)))
    (kf0 : Keyframe) (o0 : String) (rest : List (Keyframe × String))
    (htag : tagged = (kf0, o0) :: rest)
    (hmode : s.heading_mode.getD "Follow Course" = "Manual Fixed Heading")
    (hnone : s.manual_heading = none)
    (ha : kf0.altitude ≠ none)
    (hvalid : ∃ p ∈ tagged, parseCoord p.1 ≠ none) :
    create_dji_wpml bF dF tagged s pois = .error .manualHeadingNone := by
  subst htag
  cases haa : kf0.altitude with
  | none => exact absurd haa ha
  | some a0 =>
    rw [create_cons_eq bF dF kf0 o0 rest s pois a0 haa]
    rw [buildPlacemarks_manual_none bF s pois ((kf0, o0) :: rest).length a0
      (resolveTargetPitch s) hmode hnone ((kf0, o0) :: rest) 0 1 1 hvalid]
    rfl

/-- Witness for the amended C10: one fully valid keyframe, Manual Fixed
Heading, no manual heading — the build raises. -/
theorem manual_heading_missing_raises_witness :
    create_dji_wpml zeroGeo zeroGeo [(kfA, "a.json")] manualNoneSettings [] =
      .error .manualHeadingNone :=
  manual_heading_missing_raises zeroGeo zeroGeo [(kfA, "a.json")] manualNoneSettings []
    kfA "a.json" [] rfl rfl rfl (by decide) (by decide)

/-! ### Claim C5: template reuse -/

theorem containsSub_cons (c : Char) (l n : List Char) (h : containsSub l n = true) :
    containsSub (c :: l) n = true := by
  unfold containsSub
  rw [h, Bool.or_true]

theorem containsSub_append_right (a b n : List Char) (h : containsSub b n = true) :
    containsSub (a ++ b) n = true := by
  induction a with
  | nil => exact h
  | cons c a' ih => exact containsSub_cons c (a' ++ b) n ih

theorem strContains_append_right (x y n : String) (h : strContains y n = true) :
    strContains (x ++ y) n = true := by
  unfold strContains
  rw [show (x ++ y).toList = x.toList ++ y.toList from rfl]
  exact containsSub_append_right x.toList y.toList n.toList h

set_option maxRecDepth 20000 in
theorem default_template_contains_mc (ts : String) :
    strContains (default_template_kml ts) mc_marker = true := by
  unfold default_template_kml
  exact strContains_append_right _ _ _ (by decide)

set_option maxRecDepth 20000 in
theorem default_template_contains_di (ts : String) :
    strContains (default_template_kml ts) di_marker = true := by
  unfold default_template_kml
  exact strContains_append_right _ _ _ (by decide)

theorem create_template_kml_none_eq (ts : String) :
    create_template_kml none ts = default_template_kml ts := rfl

theorem create_template_kml_some_eq (s ts : String) :
    create_template_kml (some s) ts =
      if s = "" then default_template_kml ts
      else if strContains s mc_marker && strContains s di_marker then s
      else default_template_kml ts := rfl

/-- C5 amended: `create_template_kml` returns the caller-supplied reference
text verbatim if and only if that text is non-empty and contains the two
literal marker substrings (`<wpml:missionConfig>` and `<wpml:droneInfo>`) —
no parsing of the reference text takes place; in every other case (including
absent text) it returns the synthesized default template. -/
theorem create_template_kml_reuse_iff (s ts : String) :
    (create_template_kml (some s) ts = s ↔
      (¬ s = "" ∧ strContains s mc_marker = true ∧ strContains s di_marker = true)) ∧
    (create_template_kml (some s) ts = s ∨
      create_template_kml (some s) ts = default_template_kml ts) ∧
    create_template_kml none ts = default_template_kml ts := by
  refine ⟨⟨?_, ?_⟩, ?_, rfl⟩
  · intro h
    by_cases he : s = ""
    · rw [create_template_kml_some_eq, if_pos he] at h
      have hc := default_template_contains_mc ts
      rw [h, he] at hc
      exact absurd hc (by decide)
    · by_cases hm : strContains s mc_marker = true ∧ strContains s di_marker = true
      · exact ⟨he, hm.1, hm.2⟩
      · have hcond : ¬((strContains s mc_marker && strContains s di_marker) = true) := by
          rw [Bool.and_eq_true]
          exact hm
        rw [create_template_kml_some_eq, if_neg he, if_neg hcond] at h
        have h1 := default_template_contains_mc ts
        have h2 := default_template_contains_di ts
        rw [h] at h1 h2
        exact ⟨he, h1, h2⟩
  · rintro ⟨he, h1, h2⟩
    rw [create_template_kml_some_eq, if_neg he,
      if_pos (by rw [Bool.and_eq_true]; exact ⟨h1, h2⟩)]
  · by_cases he : s = ""
    · right
      rw [create_template_kml_some_eq, if_pos he]
    · by_cases hc : (strContains s mc_marker && strContains s di_marker) = true
      · left
        rw [create_template_kml_some_eq, if_neg he, if_pos hc]
      · right
        rw [create_template_kml_some_eq, if_neg he, if_neg hc]

/-- C5 counterexample: the text `<wpml:missionConfig><wpml:droneInfo>`
contains both marker substrings but is not well-formed markup (it does not
parse: two opening tags, nothing closed), yet `create_template_kml` returns
it verbatim — the reuse decision is substring containment, not parsing. -/
theorem create_template_kml_counterexample :
    create_template_kml (some bad_ref_kml) "0" = bad_ref_kml ∧
    xmlWellFormed bad_ref_kml = false := by
  decide
